import Mathlib

/-!
Verification development for the NSLoggerClient repository (Rust).

The repository contains two generations of the same logging client:
an older inline version in `src/nslogger/mod.rs` (its own `LogMessage`,
`LoggerState`, `MessageHandler`) and a newer split version in
`src/nslogger/logger_state.rs` / `network_manager.rs` /
`message_worker.rs`.  Both are embedded below where claims reference
them.

Conventions of the shallow embedding:
* Machine integers (`u8`/`u16`/`u32`/`u64`) are `Nat`s.  Fields that
  are machine-width in the source (`data_used : u32`,
  `part_count : u16`) are tracked as exact naturals and the width is
  applied (`% 2^32`, `% 2^16`) at every observation point, which is
  equivalent to storing the wrapped value.
* Byte sequences are `List Nat` (each entry `< 256` by construction,
  the big-endian writers extract bit ranges with `/` and `% 256`).
* Fallible I/O (TCP connect, TLS handshake, `write_all`) is
  parameterised by explicit boolean oracles; a Rust `panic!` /
  `.unwrap()` / `.expect(..)` on a failure path is modelled as an
  `Except.error` / `none` / dedicated `panicked` outcome so that
  "process terminated" is observable.
-/

set_option maxRecDepth 8192

namespace NSLogger

/-! ## Byte-level helpers (byteorder's big-endian writers) -/

/-- Big-endian encoding of the low 16 bits of `n` (byteorder `write_u16::<BigEndian>`). -/
def be16 (n : Nat) : List Nat := [n / 2^8 % 256, n % 256]

/-- Big-endian encoding of the low 32 bits of `n` (byteorder `write_u32::<BigEndian>`). -/
def be32 (n : Nat) : List Nat := [n / 2^24 % 256, n / 2^16 % 256, n / 2^8 % 256, n % 256]

/-- Big-endian encoding of the low 64 bits of `n` (byteorder `write_u64::<BigEndian>`). -/
def be64 (n : Nat) : List Nat :=
  [n / 2^56 % 256, n / 2^48 % 256, n / 2^40 % 256, n / 2^32 % 256,
   n / 2^24 % 256, n / 2^16 % 256, n / 2^8 % 256, n % 256]

/-- UTF-8 encoding of one Unicode code point. -/
def charUtf8 (n : Nat) : List Nat :=
  if n < 0x80 then [n]
  else if n < 0x800 then [0xC0 + n / 64, 0x80 + n % 64]
  else if n < 0x10000 then [0xE0 + n / 4096, 0x80 + n / 64 % 64, 0x80 + n % 64]
  else [0xF0 + n / 262144, 0x80 + n / 4096 % 64, 0x80 + n / 64 % 64, 0x80 + n % 64]

/-- UTF-8 bytes of a string (`str::as_bytes` on Rust's UTF-8 strings). -/
def stringBytes (s : String) : List Nat := (s.data.map (fun c => charUtf8 c.toNat)).flatten

/-! ## `MessagePartKey` and `MessagePartType` (mod.rs lines 89-115) -/

def MESSAGE_TYPE : Nat := 0
def TIMESTAMP_S : Nat := 1
def TIMESTAMP_MS : Nat := 2
def TIMESTAMP_US : Nat := 3
def THREAD_ID : Nat := 4
def TAG : Nat := 5
def LEVEL : Nat := 6
def MESSAGE : Nat := 7
def MESSAGE_SEQ : Nat := 10

def PART_TYPE_STRING : Nat := 0
def PART_TYPE_BINARY : Nat := 1
def PART_TYPE_INT16 : Nat := 2
def PART_TYPE_INT32 : Nat := 3
def PART_TYPE_INT64 : Nat := 4
def PART_TYPE_IMAGE : Nat := 5

/-- `LogMessageType` (mod.rs lines 69-77). -/
inductive LogMessageType where
  | LOG
  | BLOCK_START
  | BLOCK_END
  | CLIENT_INFO
  | DISCONNECT
  | MARK
deriving DecidableEq

def LogMessageType.toNat : LogMessageType → Nat
  | .LOG => 0
  | .BLOCK_START => 1
  | .BLOCK_END => 2
  | .CLIENT_INFO => 3
  | .DISCONNECT => 4
  | .MARK => 5

/-! ## `LogMessage` (mod.rs lines 117-207) -/

structure LogMessage where
  sequence_number : Nat          -- u32
  data : List Nat                -- Vec<u8>
  data_used : Nat                -- u32, tracked exactly, wrapped at observation
  part_count : Nat               -- u16, tracked exactly, wrapped at observation
deriving DecidableEq

namespace LogMessage

/-- `LogMessage::add_int64` (mod.rs lines 137-143). -/
def add_int64 (m : LogMessage) (key value : Nat) : LogMessage :=
  { m with data_used := m.data_used + 10,
           data := m.data ++ [key % 256, PART_TYPE_INT64] ++ be64 value,
           part_count := m.part_count + 1 }

/-- `LogMessage::add_int32` (mod.rs lines 145-151). -/
def add_int32 (m : LogMessage) (key value : Nat) : LogMessage :=
  { m with data_used := m.data_used + 6,
           data := m.data ++ [key % 256, PART_TYPE_INT32] ++ be32 value,
           part_count := m.part_count + 1 }

/-- `LogMessage::add_int16` (mod.rs lines 153-159). -/
def add_int16 (m : LogMessage) (key value : Nat) : LogMessage :=
  { m with data_used := m.data_used + 4,
           data := m.data ++ [key % 256, PART_TYPE_INT16] ++ be16 value,
           part_count := m.part_count + 1 }

/-- `LogMessage::add_bytes` (mod.rs lines 161-169). -/
def add_bytes (m : LogMessage) (key data_type : Nat) (bytes : List Nat) : LogMessage :=
  { m with data_used := m.data_used + (6 + bytes.length),
           data := m.data ++ [key % 256, data_type % 256] ++ be32 bytes.length ++ bytes,
           part_count := m.part_count + 1 }

/-- `LogMessage::add_string` (mod.rs lines 171-173). -/
def add_string (m : LogMessage) (key : Nat) (s : String) : LogMessage :=
  m.add_bytes key PART_TYPE_STRING (stringBytes s)

/-- `LogMessage::add_timestamp` (mod.rs lines 175-185).  `now` is the
wall-clock reading (milliseconds since epoch) that
`SystemTime::now()` would return, passed in explicitly to keep the
embedding pure. -/
def add_timestamp (m : LogMessage) (value now : Nat) : LogMessage :=
  let actual_value := if value = 0 then now else value
  (m.add_int64 TIMESTAMP_S (actual_value / 1000)).add_int16 TIMESTAMP_MS (actual_value % 1000)

/-- `LogMessage::add_thread_id` (mod.rs lines 187-191): the thread id is
stubbed in the source as the literal string `"Thread ID"` (`// TODO`). -/
def add_thread_id (m : LogMessage) : LogMessage :=
  m.add_string THREAD_ID "Thread ID"

/-- `LogMessage::new` (mod.rs lines 126-135).  `now` is the wall-clock
reading used by `add_timestamp(0)`. -/
def new (message_type : LogMessageType) (sequence_number now : Nat) : LogMessage :=
  let new_message : LogMessage :=
    { sequence_number := sequence_number, data := [], data_used := 6, part_count := 0 }
  ((((new_message.add_int32 MESSAGE_TYPE message_type.toNat).add_int32
      MESSAGE_SEQ sequence_number).add_timestamp 0 now).add_thread_id)

/-- `LogMessage::get_bytes` (mod.rs lines 193-206).  `data_used` and
`part_count` are u32/u16 in the source, hence the `% 2^32` / `% 2^16`
at this observation point; `data_used - 4` is u32 wrapping
subtraction. -/
def get_bytes (m : LogMessage) : List Nat :=
  let size := (m.data_used % 2^32 + 2^32 - 4) % 2^32
  let header := be32 size ++ be16 (m.part_count % 2^16)
  if m.data_used % 2^32 = m.data.length % 2^32 then m.data
  else header ++ m.data

end LogMessage

/-! ## Operation sequences on a `LogMessage`

Every `LogMessage` in the program is built by `LogMessage::new`
followed by some sequence of `add_*` calls.  `AddOp` reifies one such
call (with `add_string` expressed through `add_bytes`, as in the
source). -/

inductive AddOp where
  | i64 (key value : Nat)
  | i32 (key value : Nat)
  | i16 (key value : Nat)
  | blob (key dtype : Nat) (payload : List Nat)
deriving DecidableEq

def applyOp (m : LogMessage) : AddOp → LogMessage
  | .i64 key value => m.add_int64 key value
  | .i32 key value => m.add_int32 key value
  | .i16 key value => m.add_int16 key value
  | .blob key dtype payload => m.add_bytes key dtype payload

def applyOps (m : LogMessage) (ops : List AddOp) : LogMessage :=
  ops.foldl applyOp m

/-- The exact bytes one `add_*` call appends to `data`: one key byte,
one type byte, then the payload (length-prefixed for variable-length
parts). -/
def opBytes : AddOp → List Nat
  | .i64 key value => [key % 256, PART_TYPE_INT64] ++ be64 value
  | .i32 key value => [key % 256, PART_TYPE_INT32] ++ be32 value
  | .i16 key value => [key % 256, PART_TYPE_INT16] ++ be16 value
  | .blob key dtype payload => [key % 256, dtype % 256] ++ be32 payload.length ++ payload

/-- The amount one `add_*` call adds to `data_used`. -/
def opUsed : AddOp → Nat
  | .i64 _ _ => 10
  | .i32 _ _ => 6
  | .i16 _ _ => 4
  | .blob _ _ payload => 6 + payload.length

/-- The declared payload size of a part: the fixed integer width for
fixed-width parts, the raw byte count for variable-length parts. -/
def payloadSize : AddOp → Nat
  | .i64 _ _ => 8
  | .i32 _ _ => 4
  | .i16 _ _ => 2
  | .blob _ _ payload => payload.length

/-- Whether a part is variable-length (carries a 4-byte length prefix). -/
def isVariableLength : AddOp → Bool
  | .blob _ _ _ => true
  | _ => false

/-- The `add_*` sequence performed by `LogMessage::new` itself. -/
def newOps (message_type : LogMessageType) (sequence_number now : Nat) : List AddOp :=
  [.i32 MESSAGE_TYPE message_type.toNat,
   .i32 MESSAGE_SEQ sequence_number,
   .i64 TIMESTAMP_S (now / 1000),
   .i16 TIMESTAMP_MS (now % 1000),
   .blob THREAD_ID PART_TYPE_STRING (stringBytes "Thread ID")]

/-- The empty message every construction starts from. -/
def rawMessage (sequence_number : Nat) : LogMessage :=
  { sequence_number := sequence_number, data := [], data_used := 6, part_count := 0 }


/-! ## Codec lemmas -/

theorem length_be16 (n : Nat) : (be16 n).length = 2 := rfl

theorem length_be32 (n : Nat) : (be32 n).length = 4 := rfl

theorem length_be64 (n : Nat) : (be64 n).length = 8 := rfl

theorem be16_mod (n : Nat) : be16 (n % 2^16) = be16 n := by
  simp only [be16, List.cons.injEq, and_true]
  omega

/-- One `add_*` call appends exactly `opBytes` to the data buffer. -/
theorem applyOp_data (m : LogMessage) (op : AddOp) :
    (applyOp m op).data = m.data ++ opBytes op := by
  cases op <;>
    simp [applyOp, opBytes, LogMessage.add_int64, LogMessage.add_int32,
      LogMessage.add_int16, LogMessage.add_bytes]

theorem applyOp_data_used (m : LogMessage) (op : AddOp) :
    (applyOp m op).data_used = m.data_used + opUsed op := by
  cases op <;>
    simp [applyOp, opUsed, LogMessage.add_int64, LogMessage.add_int32,
      LogMessage.add_int16, LogMessage.add_bytes]

theorem applyOp_part_count (m : LogMessage) (op : AddOp) :
    (applyOp m op).part_count = m.part_count + 1 := by
  cases op <;>
    simp [applyOp, LogMessage.add_int64, LogMessage.add_int32,
      LogMessage.add_int16, LogMessage.add_bytes]

theorem length_opBytes (op : AddOp) : (opBytes op).length = opUsed op := by
  cases op <;> simp [opBytes, opUsed, be64, be32, be16]
  omega

theorem applyOps_data (ops : List AddOp) :
    ∀ m : LogMessage, (applyOps m ops).data = m.data ++ (ops.map opBytes).flatten := by
  induction ops with
  | nil => intro m; simp [applyOps]
  | cons op ops ih =>
      intro m
      have hstep : applyOps m (op :: ops) = applyOps (applyOp m op) ops := rfl
      rw [hstep, ih, applyOp_data]
      simp

theorem applyOps_data_used (ops : List AddOp) :
    ∀ m : LogMessage, (applyOps m ops).data_used = m.data_used + (ops.map opUsed).sum := by
  induction ops with
  | nil => intro m; simp [applyOps]
  | cons op ops ih =>
      intro m
      have hstep : applyOps m (op :: ops) = applyOps (applyOp m op) ops := rfl
      rw [hstep, ih, applyOp_data_used]
      simp
      omega

theorem applyOps_part_count (ops : List AddOp) :
    ∀ m : LogMessage, (applyOps m ops).part_count = m.part_count + ops.length := by
  induction ops with
  | nil => intro m; simp [applyOps]
  | cons op ops ih =>
      intro m
      have hstep : applyOps m (op :: ops) = applyOps (applyOp m op) ops := rfl
      rw [hstep, ih, applyOp_part_count]
      simp
      omega

/-- `LogMessage::new` is exactly the `newOps` sequence applied to the raw message. -/
theorem new_eq_applyOps (t : LogMessageType) (seq now : Nat) :
    LogMessage.new t seq now = applyOps (rawMessage seq) (newOps t seq now) := rfl

theorem applyOps_append (m : LogMessage) (l₁ l₂ : List AddOp) :
    applyOps m (l₁ ++ l₂) = applyOps (applyOps m l₁) l₂ := by
  simp [applyOps]

theorem flatten_length_sum (L : List (List Nat)) :
    L.flatten.length = (L.map List.length).sum := by
  induction L with
  | nil => simp
  | cons x L ih => simp [ih]

/-- The length of the part buffer equals the `data_used` increments. -/
theorem opBytes_flatten_length (ops : List AddOp) :
    ((ops.map opBytes).flatten).length = (ops.map opUsed).sum := by
  rw [flatten_length_sum, List.map_map]
  have h : (List.length ∘ opBytes) = opUsed := funext length_opBytes
  rw [h]

/-- Source-level increment of `data_used` per part coincides with the
spec's formula: 2 header bytes, plus a 4-byte length prefix for
variable-length parts, plus the declared payload size. -/
theorem opUsed_eq_claimed (op : AddOp) :
    opUsed op = 2 + (if isVariableLength op then 4 else 0) + payloadSize op := by
  cases op <;> simp [opUsed, isVariableLength, payloadSize]

/-- The branch of `get_bytes` that returns the raw buffer without a
header is dead: `data_used` always exceeds `data.len()` by 6, also
after u32 wrapping. -/
theorem header_branch_dead (len : Nat) : ¬((len + 6) % 2^32 = len % 2^32) := by
  omega

/-- For any message satisfying the `data_used = data.len() + 6`
invariant, `get_bytes` produces the 6-byte header followed by the
part buffer. -/
theorem get_bytes_header (m : LogMessage) (h : m.data_used = m.data.length + 6) :
    m.get_bytes =
      be32 ((m.data_used % 2^32 + 2^32 - 4) % 2^32) ++ be16 (m.part_count % 2^16) ++ m.data := by
  have hne : ¬(m.data_used % 2^32 = m.data.length % 2^32) := by
    rw [h]; exact header_branch_dead m.data.length
  simp only [LogMessage.get_bytes, if_neg hne]

/-- The `data_used = data.len() + 6` invariant for every message built
by `new` followed by any `add_*` sequence. -/
theorem built_invariant (t : LogMessageType) (seq now : Nat) (ops : List AddOp) :
    (applyOps (LogMessage.new t seq now) ops).data_used
      = (applyOps (LogMessage.new t seq now) ops).data.length + 6 := by
  rw [new_eq_applyOps, ← applyOps_append]
  rw [applyOps_data_used, applyOps_data]
  simp only [rawMessage, List.nil_append]
  rw [opBytes_flatten_length]
  omega

/-- C1: for every `LogMessage` (built by `new` plus any `add_*`
sequence) whose `data_used` fits a u32, `get_bytes` is the 4-byte
big-endian length field, then the 2-byte big-endian part count, then
the parts in order (each one key byte, one type byte, and its
payload); the length field equals `2 + sum over parts of (2 + 4-byte
length prefix for variable-length parts + payload size)`, covering
everything after itself and excluding its own 4 bytes. -/
theorem C1_wire_format (t : LogMessageType) (seq now : Nat) (ops : List AddOp)
    (hfit : (applyOps (LogMessage.new t seq now) ops).data_used < 2^32) :
    (applyOps (LogMessage.new t seq now) ops).get_bytes =
      be32 (2 + ((newOps t seq now ++ ops).map
          (fun op => 2 + (if isVariableLength op then 4 else 0) + payloadSize op)).sum) ++
      be16 (newOps t seq now ++ ops).length ++
      ((newOps t seq now ++ ops).map opBytes).flatten := by
  have hinv := built_invariant t seq now ops
  have hused : (applyOps (LogMessage.new t seq now) ops).data_used
      = 6 + ((newOps t seq now ++ ops).map opUsed).sum := by
    rw [new_eq_applyOps, ← applyOps_append, applyOps_data_used]
    simp [rawMessage]
  have hdata : (applyOps (LogMessage.new t seq now) ops).data
      = ((newOps t seq now ++ ops).map opBytes).flatten := by
    rw [new_eq_applyOps, ← applyOps_append, applyOps_data]
    simp [rawMessage]
  have hpc : (applyOps (LogMessage.new t seq now) ops).part_count
      = (newOps t seq now ++ ops).length := by
    rw [new_eq_applyOps, ← applyOps_append, applyOps_part_count]
    simp [rawMessage]
  have hsum : ((newOps t seq now ++ ops).map
      (fun op => 2 + (if isVariableLength op then 4 else 0) + payloadSize op)).sum
      = ((newOps t seq now ++ ops).map opUsed).sum := by
    congr 1
    exact List.map_congr_left (fun op _ => (opUsed_eq_claimed op).symm)
  rw [hused] at hfit
  have harg : ((6 + ((newOps t seq now ++ ops).map opUsed).sum) % 2^32 + 2^32 - 4) % 2^32
      = 2 + ((newOps t seq now ++ ops).map opUsed).sum := by omega
  rw [get_bytes_header _ hinv, hused, hdata, hpc, hsum, harg, be16_mod]

/-- Witness for C1: a concrete message (no caller-supplied fields)
satisfies the size hypothesis and the stated encoding. -/
theorem C1_wire_format_witness :
    (applyOps (LogMessage.new .LOG 0 0) []).data_used < 2^32 ∧
    (applyOps (LogMessage.new .LOG 0 0) []).get_bytes =
      be32 (2 + ((newOps .LOG 0 0 ++ []).map
          (fun op => 2 + (if isVariableLength op then 4 else 0) + payloadSize op)).sum) ++
      be16 (newOps .LOG 0 0 ++ []).length ++
      ((newOps .LOG 0 0 ++ []).map opBytes).flatten :=
  ⟨by decide, C1_wire_format .LOG 0 0 [] (by decide)⟩

/-- C10: every `LogMessage` built by `new` followed by any sequence of
`add_*` calls satisfies `data_used = data.len() + 6`, so the branch of
`get_bytes` that would return the raw part bytes without the 6-byte
header (taken when `data_used == data.len()`) is unreachable:
`get_bytes` always returns the length/part-count header followed by
the parts. -/
theorem C10_data_used_invariant (t : LogMessageType) (seq now : Nat) (ops : List AddOp) :
    (applyOps (LogMessage.new t seq now) ops).data_used
      = (applyOps (LogMessage.new t seq now) ops).data.length + 6 ∧
    (applyOps (LogMessage.new t seq now) ops).get_bytes =
      be32 (((applyOps (LogMessage.new t seq now) ops).data_used % 2^32 + 2^32 - 4) % 2^32) ++
      be16 ((applyOps (LogMessage.new t seq now) ops).part_count % 2^16) ++
      (applyOps (LogMessage.new t seq now) ops).data :=
  ⟨built_invariant t seq now ops,
   get_bytes_header _ (built_invariant t seq now ops)⟩

/-- C7 counterexample: immediately after construction a `LogMessage`
contains five parts (message-type, sequence-number, timestamp-seconds,
timestamp-milliseconds, and a thread-id string), not three: the claim
"exactly three parts: message-type, sequence-number, and the timestamp
pair" is false even when the timestamp pair is counted as two parts. -/
theorem C7_counterexample :
    (LogMessage.new .LOG 0 0).part_count = 5 ∧
    ¬((LogMessage.new .LOG 0 0).part_count = 3) ∧
    ¬((LogMessage.new .LOG 0 0).part_count = 4) := by
  decide

/-- C7 (amended): every `LogMessage`, immediately after construction
and before any caller-supplied field is added, contains exactly five
parts: message-type, sequence-number, the timestamp pair (seconds plus
milliseconds, taken from the wall clock `now` when no explicit
timestamp value is supplied), and a thread-id string part (the literal
"Thread ID"), in that order. -/
theorem C7_new_message_parts (t : LogMessageType) (seq now : Nat) :
    (LogMessage.new t seq now).part_count = 5 ∧
    (LogMessage.new t seq now).data =
      opBytes (.i32 MESSAGE_TYPE t.toNat) ++ opBytes (.i32 MESSAGE_SEQ seq) ++
      opBytes (.i64 TIMESTAMP_S (now / 1000)) ++ opBytes (.i16 TIMESTAMP_MS (now % 1000)) ++
      opBytes (.blob THREAD_ID PART_TYPE_STRING (stringBytes "Thread ID")) := by
  refine ⟨rfl, ?_⟩
  simp [LogMessage.new, LogMessage.add_int32, LogMessage.add_timestamp,
    LogMessage.add_int64, LogMessage.add_int16, LogMessage.add_thread_id,
    LogMessage.add_string, LogMessage.add_bytes, opBytes]

/-! ## `logger_state.rs`: `WriteStreamWrapper`, `LoggerState`

`logger_state.rs` is the newer generation of the client.  Its
`LogMessage` comes from the (absent) `log_message.rs` module; the
`LogMessage` embedded above from `mod.rs` is used for the message
encodings.  The `flush_rx`/`flush_tx` fields used by
`write_messages_to_stream` (a per-message flush-confirmation channel)
do not affect the queue, the sink bytes or the control flags and are
not modelled. -/

/-- `WriteStreamWrapper` (logger_state.rs lines 32-37): the three sink
variants.  Streams carry the address they were opened against. -/
inductive Sink where
  | tcp (addr : String)
  | ssl (addr : String)
  | file
deriving DecidableEq

/-- `HandlerMessageType` (logger_state.rs lines 22-30), restricted to
the payload-free message kinds the embedded code sends. -/
inductive HandlerMsg where
  | tryConnect
  | connectComplete
  | tryConnectBonjour (serviceName host : String) (port : Nat)
  | quit
deriving DecidableEq

/-- The fields of `LoggerState` (logger_state.rs lines 58-85) the
embedded operations read or write, plus two observation logs:
`written` (all bytes successfully passed to `write_stream.write_all`)
and `connect_attempts` (every address passed to
`TcpStream::connect`). -/
structure LState where
  options : Nat                       -- LoggerOptions bit set (u16)
  is_reconnection_scheduled : Bool
  is_connecting : Bool
  is_connected : Bool
  is_client_info_added : Bool
  remote_host : Option String
  remote_port : Option Nat
  write_stream : Option Sink
  next_sequence_numbers : Nat         -- AtomicU32
  log_messages : List LogMessage
  written : List Nat
  sent : List HandlerMsg
  connect_attempts : List String
deriving DecidableEq

/-- `LoggerOptions` bit values (mod.rs lines 58-67). -/
def FLUSH_EACH_MESSAGE : Nat := 1
def BROWSE_BONJOUR : Nat := 2
def USE_SSL : Nat := 4
def ROUTE_TO_LOGCAT : Nat := 8

/-- The duplicate-sink error string of `connect_to_remote`
(logger_state.rs line 161). -/
def duplicateSinkError : String := "internal error: remote_socket should be none"

/-- The transient TCP-connection error string of `connect_to_remote`
(logger_state.rs line 174). -/
def tcpConnectError : String := "error occurred during tcp stream connection"

/-- Outcome of `connect_to_remote`: a `Result::Err` return (with the
state as left behind), a `Result::Ok` return, or a panic from one of
the `unwrap()` calls. -/
inductive ConnectResult where
  | err (msg : String) (s : LState)
  | ok (s : LState)
  | panicked (msg : String)
deriving DecidableEq

/-- `LoggerState::connect_to_remote` (logger_state.rs lines 156-232).
`tcpOk` is the outcome of `TcpStream::connect`; `sslOk` the outcome of
the TLS handshake
(`danger_connect_without_providing_domain_for_certificate_verification_and_server_name_indication`,
whose failure the source unwraps into a panic).  Note the source
tests `!(self.options | USE_SSL).is_empty()` — a bitwise OR — for the
TLS branch. -/
def connect_to_remote (tcpOk sslOk : Bool) (s : LState) : ConnectResult :=
  if s.write_stream.isSome then .err duplicateSinkError s
  else
    match s.remote_host, s.remote_port with
    | some host, some port =>
      let connect_string := host ++ ":" ++ toString port
      let s0 := { s with connect_attempts := s.connect_attempts ++ [connect_string] }
      if tcpOk then
        let s1 := { s0 with write_stream := some (.tcp connect_string) }
        if ¬(Nat.lor s1.options USE_SSL = 0) then
          -- `write_stream.take()` always holds the Tcp variant here
          if sslOk then
            .ok { s1 with write_stream := some (.ssl connect_string),
                          sent := s1.sent ++ [.connectComplete] }
          else .panicked "TLS handshake failed"
        else .ok { s1 with sent := s1.sent ++ [.connectComplete] }
      else .err tcpConnectError s0
    | _, _ => .panicked "called Option.unwrap on a None value"

/-- `LoggerState::push_client_info_to_front_of_queue`
(logger_state.rs lines 140-148).  `now` is the wall clock used by
`LogMessage::new`. -/
def push_client_info_to_front_of_queue (now : Nat) (s : LState) : LState :=
  { s with log_messages :=
             LogMessage.new .CLIENT_INFO s.next_sequence_numbers now :: s.log_messages,
           next_sequence_numbers := s.next_sequence_numbers + 1,
           is_client_info_added := true }

/-- The write loop of `LoggerState::write_messages_to_stream`
(logger_state.rs lines 253-284): for each head message, unwrap the
sink, `write_all` its encoding (`oks n` is the outcome of the n-th
write; a failure hits `.expect("Write to stream failed")`, i.e. a
panic), then remove the message from the queue.  Returns the bytes
written so far. -/
def writeLoop (oks : Nat → Bool) (stream : Option Sink) :
    List LogMessage → List Nat → Except String (List Nat)
  | [], written => .ok written
  | msg :: rest, written =>
    match stream with
    | none => .error "called Option.unwrap on a None value"
    | some _ =>
      if oks 0 then writeLoop (fun n => oks (n + 1)) stream rest (written ++ msg.get_bytes)
      else .error "Write to stream failed"

/-- `LoggerState::write_messages_to_stream` (logger_state.rs lines
248-285).  An `Except.error` is a panic that terminates the worker
thread. -/
def write_messages_to_stream (oks : Nat → Bool) (s : LState) : Except String LState :=
  match writeLoop oks s.write_stream s.log_messages s.written with
  | .ok w => .ok { s with written := w, log_messages := [] }
  | .error e => .error e

/-- `LoggerState::flush_queue_to_buffer_stream` (logger_state.rs lines
240-246): logs, then delegates to `write_messages_to_stream`. -/
def flush_queue_to_buffer_stream (oks : Nat → Bool) (s : LState) : Except String LState :=
  write_messages_to_stream oks s

/-- `LoggerState::process_log_queue` (logger_state.rs lines 111-138). -/
def process_log_queue (oks : Nat → Bool) (now : Nat) (s : LState) : Except String LState :=
  if s.log_messages.isEmpty then .ok s
  else
    let s1 := if ¬s.is_client_info_added then push_client_info_to_front_of_queue now s else s
    if s1.remote_host.isNone then flush_queue_to_buffer_stream oks s1
    else if s1.is_connected then write_messages_to_stream oks s1
    else .ok s1

/-- `LoggerState::new` (logger_state.rs lines 89-109): default options
`BROWSE_BONJOUR | USE_SSL`, everything else empty/false. -/
def LState.new : LState :=
  { options := Nat.lor BROWSE_BONJOUR USE_SSL,
    is_reconnection_scheduled := false, is_connecting := false,
    is_connected := false, is_client_info_added := false,
    remote_host := none, remote_port := none, write_stream := none,
    next_sequence_numbers := 0, log_messages := [], written := [], sent := [],
    connect_attempts := [] }

/-- A drain over an open sink with all writes succeeding writes the
encodings of the queued messages in order. -/
theorem writeLoop_ok (sk : Sink) :
    ∀ (queue : List LogMessage) (oks : Nat → Bool) (written : List Nat),
      (∀ n, oks n = true) →
      writeLoop oks (some sk) queue written
        = .ok (written ++ (queue.map LogMessage.get_bytes).flatten) := by
  intro queue
  induction queue with
  | nil => intro oks written hok; simp [writeLoop]
  | cons m rest ih =>
      intro oks written hok
      simp only [writeLoop, hok 0, if_true]
      rw [ih _ _ (fun n => hok (n + 1))]
      simp

theorem process_log_queue_connected_added (s : LState) (oks : Nat → Bool) (now : Nat)
    (sk : Sink) (h : String)
    (hne : s.log_messages ≠ [])
    (hconn : s.is_connected = true)
    (hhost : s.remote_host = some h)
    (hsink : s.write_stream = some sk)
    (hok : ∀ n, oks n = true)
    (hcia : s.is_client_info_added = true) :
    process_log_queue oks now s =
      .ok { s with written := s.written ++ (s.log_messages.map LogMessage.get_bytes).flatten,
                   log_messages := [] } := by
  have hempty : s.log_messages.isEmpty = false := by
    cases hq : s.log_messages with
    | nil => exact absurd hq hne
    | cons a l => rfl
  simp [process_log_queue, hempty, hcia, hhost, hconn,
    write_messages_to_stream, hsink, writeLoop_ok sk _ _ _ hok]

theorem process_log_queue_connected_not_added (s : LState) (oks : Nat → Bool) (now : Nat)
    (sk : Sink) (h : String)
    (hne : s.log_messages ≠ [])
    (hconn : s.is_connected = true)
    (hhost : s.remote_host = some h)
    (hsink : s.write_stream = some sk)
    (hok : ∀ n, oks n = true)
    (hcia : s.is_client_info_added = false) :
    process_log_queue oks now s =
      .ok { s with is_client_info_added := true,
                   next_sequence_numbers := s.next_sequence_numbers + 1,
                   written := s.written ++
                     (LogMessage.new .CLIENT_INFO s.next_sequence_numbers now).get_bytes ++
                     (s.log_messages.map LogMessage.get_bytes).flatten,
                   log_messages := [] } := by
  have hempty : s.log_messages.isEmpty = false := by
    cases hq : s.log_messages with
    | nil => exact absurd hq hne
    | cons a l => rfl
  simp [process_log_queue, hempty, hcia, push_client_info_to_front_of_queue, hhost, hconn,
    write_messages_to_stream, hsink, writeLoop_ok sk _ _ _ hok]

/-- C2: for any non-empty queue of enqueued messages drained while
connected (open sink, remote host known, writes succeeding), the bytes
written to the sink are exactly the concatenation of each message's
encoding in enqueue order; if the client-info message has not yet been
sent when the drain starts it is inserted at the queue head first and
the client-info-sent flag set, so its encoding precedes all others. -/
theorem C2_fifo_drain (s : LState) (oks : Nat → Bool) (now : Nat) (sk : Sink) (h : String)
    (hne : s.log_messages ≠ [])
    (hconn : s.is_connected = true)
    (hhost : s.remote_host = some h)
    (hsink : s.write_stream = some sk)
    (hok : ∀ n, oks n = true) :
    ∃ s', process_log_queue oks now s = .ok s' ∧
      s'.written = s.written ++
        (if s.is_client_info_added then []
         else (LogMessage.new .CLIENT_INFO s.next_sequence_numbers now).get_bytes) ++
        (s.log_messages.map LogMessage.get_bytes).flatten ∧
      s'.is_client_info_added = true ∧
      s'.log_messages = [] := by
  cases hcia : s.is_client_info_added with
  | true =>
      refine ⟨_, process_log_queue_connected_added s oks now sk h hne hconn hhost hsink hok hcia,
        ?_, ?_, ?_⟩ <;> simp [hcia]
  | false =>
      refine ⟨_, process_log_queue_connected_not_added s oks now sk h hne hconn hhost hsink hok
        hcia, ?_, ?_, ?_⟩ <;> simp [hcia]

/-- Witness for C2: a single queued message on a connected state with
an open TCP sink: the sink receives the client-info encoding, then the
message's encoding. -/
theorem C2_fifo_drain_witness :
    ∃ s', process_log_queue (fun _ => true) 0
        { LState.new with is_connected := true,
                          remote_host := some "127.0.0.1",
                          remote_port := some 50000,
                          write_stream := some (.tcp "127.0.0.1:50000"),
                          log_messages := [LogMessage.new .LOG 7 0] } = .ok s' ∧
      s'.written = [] ++
        (if ({ LState.new with is_connected := true,
                               remote_host := some "127.0.0.1",
                               remote_port := some 50000,
                               write_stream := some (.tcp "127.0.0.1:50000"),
                               log_messages := [LogMessage.new .LOG 7 0] } :
              LState).is_client_info_added then []
         else (LogMessage.new .CLIENT_INFO 0 0).get_bytes) ++
        ([LogMessage.new .LOG 7 0].map LogMessage.get_bytes).flatten ∧
      s'.is_client_info_added = true ∧
      s'.log_messages = [] :=
  C2_fifo_drain _ _ 0 (.tcp "127.0.0.1:50000") "127.0.0.1"
    (by simp) rfl rfl rfl (fun _ => rfl)

/-- C3: on a write failure mid-drain the code does not keep the message
at the queue head, close the sink and schedule a reconnection — it
panics through `.expect("Write to stream failed")`, terminating the
worker thread (the claim's required recovery behavior is absent). -/
theorem C3_write_failure_panics :
    write_messages_to_stream (fun _ => false)
      { LState.new with is_connected := true, is_client_info_added := true,
                        remote_host := some "127.0.0.1", remote_port := some 50000,
                        write_stream := some (.tcp "127.0.0.1:50000"),
                        log_messages := [LogMessage.new .LOG 0 0] }
      = .error "Write to stream failed" := rfl

/-- C4: with the USE_SSL option clear, `connect_to_remote` still
installs the encrypted sink: the source tests
`!(options | USE_SSL).is_empty()` (bitwise OR, never empty) instead of
`options & USE_SSL`, so the TLS branch is always taken. -/
theorem C4_tls_branch_always_taken :
    Nat.land ({ LState.new with options := BROWSE_BONJOUR,
                                remote_host := some "127.0.0.1",
                                remote_port := some 50000 } : LState).options USE_SSL = 0 ∧
    connect_to_remote true true
      { LState.new with options := BROWSE_BONJOUR,
                        remote_host := some "127.0.0.1", remote_port := some 50000 }
      = .ok { LState.new with options := BROWSE_BONJOUR,
                              remote_host := some "127.0.0.1", remote_port := some 50000,
                              write_stream := some (.ssl "127.0.0.1:50000"),
                              sent := [.connectComplete],
                              connect_attempts := ["127.0.0.1:50000"] } := by
  constructor
  · decide
  · rfl

/-- C6: calling `connect_to_remote` while a sink is already open
returns the duplicate-sink error with the state left exactly unchanged,
and that error is distinct from the transient TCP-connection error. -/
theorem C6_duplicate_sink_rejected (s : LState) (sk : Sink) (tcpOk sslOk : Bool)
    (hsink : s.write_stream = some sk) :
    connect_to_remote tcpOk sslOk s = .err duplicateSinkError s ∧
    duplicateSinkError ≠ tcpConnectError := by
  refine ⟨?_, by decide⟩
  simp [connect_to_remote, hsink]

/-- Witness for C6: a state with an open TCP sink is rejected
unchanged. -/
theorem C6_duplicate_sink_rejected_witness :
    connect_to_remote true true
        { LState.new with write_stream := some (.tcp "10.0.0.1:50000") }
      = .err duplicateSinkError { LState.new with write_stream := some (.tcp "10.0.0.1:50000") } ∧
    duplicateSinkError ≠ tcpConnectError :=
  C6_duplicate_sink_rejected _ (.tcp "10.0.0.1:50000") true true rfl

/-! ## `mod.rs`: the older inline `LoggerState` / `MessageHandler`

The older generation in `mod.rs` keeps its own `LoggerState` (lines
209-234) with a raw `remote_socket : Option<TcpStream>` instead of the
sink wrapper, and its handler loop (lines 377-465).  It is embedded in
the `ModRs` namespace.  `ready`/`ready_waiters`/`bonjour_*` fields are
not touched by any embedded operation and are omitted. -/

namespace ModRs

/-- The fields of mod.rs `LoggerState` the handler loop reads or
writes, plus the `written`/`sent`/`connect_attempts` observation
logs. -/
structure MState where
  options : Nat
  is_reconnection_scheduled : Bool
  is_connecting : Bool
  is_connected : Bool
  is_handler_running : Bool
  is_client_info_added : Bool
  remote_host : Option String
  remote_port : Option Nat
  remote_socket : Option String       -- the address the socket was opened against
  next_sequence_numbers : Nat
  log_messages : List LogMessage
  written : List Nat
  sent : List HandlerMsg
  connect_attempts : List String
deriving DecidableEq

/-- mod.rs `LoggerState::connect_to_remote` (lines 299-368).  The
result (`Ok`/`Err`) is discarded by both callers, so only the state
(or a panic, `none`) is returned.  The source computes `connect_string`
from the configured host and port but passes the hardcoded literal
`"192.168.0.8:60582"` to `TcpStream::connect` (line 314); with
`DEBUG_LOGGER = true` the log statement unwraps `remote_host` and
`remote_port` first.  Both arms of the always-true
`!(options | USE_SSL).is_empty()` test only send `CONNECT_COMPLETE`
(the TLS upgrade is commented out in this generation). -/
def connect_to_remote (tcpOk : Bool) (s : MState) : Option MState :=
  if s.remote_socket.isSome then some s       -- Err return, state unchanged
  else
    match s.remote_host, s.remote_port with
    | some host, some port =>
      let _connect_string := host ++ ":" ++ toString port   -- computed but never used
      let s0 := { s with connect_attempts := s.connect_attempts ++ ["192.168.0.8:60582"] }
      if tcpOk then
        some { s0 with remote_socket := some "192.168.0.8:60582",
                       sent := s0.sent ++ [.connectComplete] }
      else some s0                            -- Err return
    | _, _ => none                            -- unwrap on a missing host/port

/-- mod.rs `LoggerState::push_client_info_to_front_of_queue`
(lines 283-291). -/
def push_client_info_to_front_of_queue (now : Nat) (s : MState) : MState :=
  { s with log_messages :=
             LogMessage.new .CLIENT_INFO s.next_sequence_numbers now :: s.log_messages,
           next_sequence_numbers := s.next_sequence_numbers + 1,
           is_client_info_added := true }

/-- The drain loop of mod.rs `process_log_queue` (lines 258-277): each
head message's encoding is written through `remote_socket` (unwrap:
`none` state is a panic; a failed write hits
`.expect("Write to TCP stream failed")`, also a panic), then the
message is removed. -/
def drainLoop (oks : Nat → Bool) : List LogMessage → MState → Option MState
  | [], s => some s
  | m :: rest, s =>
    match s.remote_socket with
    | none => none
    | some _ =>
      if oks 0 then
        drainLoop (fun n => oks (n + 1)) rest
          { s with written := s.written ++ m.get_bytes, log_messages := rest }
      else none

/-- mod.rs `LoggerState::process_log_queue` (lines 238-281). -/
def process_log_queue (oks : Nat → Bool) (now : Nat) (s : MState) : Option MState :=
  if s.log_messages.isEmpty then some s
  else
    let s1 := if ¬s.is_client_info_added then push_client_info_to_front_of_queue now s else s
    if s1.is_connected then drainLoop oks s1.log_messages s1
    else some s1

/-- One `HandlerMessageType` command together with the I/O outcomes its
processing consumes (`oks n`: outcome of the n-th `write_all` during
the triggered drain; `tcpOk`: outcome of `TcpStream::connect`). -/
inductive Cmd where
  | addLog (m : LogMessage) (oks : Nat → Bool) (now : Nat)
  | addLogRecord
  | optionChange (tcpOk : Bool)
  | connectComplete (oks : Nat → Bool) (now : Nat)
  | tryConnect (tcpOk : Bool)
  | quit

/-- One iteration of `MessageHandler::run_loop` (mod.rs lines
389-456): the effect of processing a single received command. -/
def step (c : Cmd) (s : MState) : Option MState :=
  match c with
  | .addLog m oks now =>
      let s1 := { s with log_messages := s.log_messages ++ [m] }
      if s1.is_connected then process_log_queue oks now s1 else some s1
  | .addLogRecord => some s
  | .optionChange tcpOk => connect_to_remote tcpOk s   -- change_options (lines 293-297)
  | .connectComplete oks now =>
      process_log_queue oks now { s with is_connecting := false, is_connected := true }
  | .tryConnect tcpOk =>
      let s1 := { s with is_reconnection_scheduled := false }
      if s1.remote_socket.isNone then
        if !s1.is_connecting && s1.remote_host.isSome && s1.remote_port.isSome then
          connect_to_remote tcpOk s1
        else some s1
      else some s1
  | .quit => some s

/-- `MessageHandler::run_loop` over a command sequence; `QUIT` breaks
the loop, a panic (`none`) aborts it. -/
def run : List Cmd → MState → Option MState
  | [], s => some s
  | .quit :: _, s => some s
  | c :: cs, s => (step c s).bind (run cs)

/-- The `LoggerState` built by `Logger::new` (mod.rs lines 618-634). -/
def loggerNewState : MState :=
  { options := Nat.lor BROWSE_BONJOUR USE_SSL,
    is_reconnection_scheduled := false, is_connecting := false,
    is_connected := false, is_handler_running := false, is_client_info_added := false,
    remote_host := none, remote_port := none, remote_socket := none,
    next_sequence_numbers := 0, log_messages := [], written := [], sent := [],
    connect_attempts := [] }

/-- The state when the handler loop starts: `run_loop` first sets
`is_handler_running` (mod.rs line 380). -/
def startState : MState := { loggerNewState with is_handler_running := true }

/-! ### The `is_connecting`/`is_connected` invariant (mod.rs, C9)

No arm of the handler loop ever sets `is_connecting`; the only write
to it is the clear in the `CONNECT_COMPLETE` arm.  So `is_connecting`
stays `false` from the initial state on, making it disjoint from
`is_connected` in every reachable state. -/

theorem drainLoop_is_connecting :
    ∀ (queue : List LogMessage) (oks : Nat → Bool) (s s' : MState),
      drainLoop oks queue s = some s' → s'.is_connecting = s.is_connecting := by
  intro queue
  induction queue with
  | nil =>
      intro oks s s' h
      simp only [drainLoop, Option.some.injEq] at h
      rw [← h]
  | cons m rest ih =>
      intro oks s s' h
      simp only [drainLoop] at h
      cases hsock : s.remote_socket with
      | none => rw [hsock] at h; exact absurd h (by simp)
      | some a =>
          rw [hsock] at h
          cases hok : oks 0 with
          | false => rw [hok] at h; exact absurd h (by simp)
          | true =>
              rw [hok] at h
              simp only [if_true] at h
              rw [ih _ _ _ h]

theorem push_client_info_is_connecting (now : Nat) (s : MState) :
    (push_client_info_to_front_of_queue now s).is_connecting = s.is_connecting := rfl

theorem process_log_queue_is_connecting (oks : Nat → Bool) (now : Nat) (s s' : MState)
    (h : process_log_queue oks now s = some s') : s'.is_connecting = s.is_connecting := by
  by_cases hq : s.log_messages.isEmpty
  · simp [process_log_queue, hq] at h
    rw [← h]
  · by_cases hcia : s.is_client_info_added
    · by_cases hconn : s.is_connected
      · simp [process_log_queue, hq, hcia, hconn] at h
        exact drainLoop_is_connecting _ _ _ _ h
      · simp [process_log_queue, hq, hcia, hconn] at h
        rw [← h]
    · by_cases hconn : s.is_connected
      · simp [process_log_queue, push_client_info_to_front_of_queue, hq, hcia, hconn] at h
        rw [drainLoop_is_connecting _ _ _ _ h]
      · simp [process_log_queue, push_client_info_to_front_of_queue, hq, hcia, hconn] at h
        rw [← h]

theorem connect_to_remote_is_connecting (tcpOk : Bool) (s s' : MState)
    (h : connect_to_remote tcpOk s = some s') : s'.is_connecting = s.is_connecting := by
  by_cases hsock : s.remote_socket.isSome
  · simp [connect_to_remote, hsock] at h
    rw [← h]
  · cases hh : s.remote_host with
    | none => simp [connect_to_remote, hsock, hh] at h
    | some host =>
        cases hp : s.remote_port with
        | none => simp [connect_to_remote, hsock, hh, hp] at h
        | some port =>
            cases tcpOk with
            | true => simp [connect_to_remote, hsock, hh, hp] at h; rw [← h]
            | false => simp [connect_to_remote, hsock, hh, hp] at h; rw [← h]

theorem step_is_connecting (c : Cmd) (s s' : MState)
    (hc : s.is_connecting = false) (h : step c s = some s') : s'.is_connecting = false := by
  cases c with
  | addLog m oks now =>
      by_cases hconn : s.is_connected
      · simp only [step] at h
        rw [if_pos (by simpa using hconn)] at h
        rw [process_log_queue_is_connecting _ _ _ _ h]
        exact hc
      · simp only [step] at h
        rw [if_neg (by simpa using hconn)] at h
        simp only [Option.some.injEq] at h
        rw [← h]
        exact hc
  | addLogRecord =>
      simp only [step, Option.some.injEq] at h
      rw [← h]; exact hc
  | optionChange tcpOk =>
      simp only [step] at h
      rw [connect_to_remote_is_connecting _ _ _ h]
      exact hc
  | connectComplete oks now =>
      simp only [step] at h
      exact process_log_queue_is_connecting _ _ _ _ h
  | tryConnect tcpOk =>
      simp only [step] at h
      by_cases hsock : s.remote_socket.isNone
      · rw [if_pos (by simpa using hsock)] at h
        by_cases hguard : (!s.is_connecting && s.remote_host.isSome && s.remote_port.isSome) = true
        · rw [if_pos (by simpa using hguard)] at h
          rw [connect_to_remote_is_connecting _ _ _ h]
          exact hc
        · rw [if_neg (by simpa using hguard)] at h
          simp only [Option.some.injEq] at h
          rw [← h]
          exact hc
      · rw [if_neg (by simpa using hsock)] at h
        simp only [Option.some.injEq] at h
        rw [← h]
        exact hc
  | quit =>
      simp only [step, Option.some.injEq] at h
      rw [← h]; exact hc

theorem run_is_connecting :
    ∀ (cmds : List Cmd) (s s' : MState),
      s.is_connecting = false → run cmds s = some s' → s'.is_connecting = false := by
  intro cmds
  induction cmds with
  | nil =>
      intro s s' hc h
      simp only [run, Option.some.injEq] at h
      rw [← h]; exact hc
  | cons c cs ih =>
      intro s s' hc h
      cases c with
      | quit =>
          simp only [run, Option.some.injEq] at h
          rw [← h]; exact hc
      | addLog m oks now =>
          rcases Option.bind_eq_some.mp h with ⟨mid, hstep, hrun⟩
          exact ih _ _ (step_is_connecting _ _ _ hc hstep) hrun
      | addLogRecord =>
          rcases Option.bind_eq_some.mp h with ⟨mid, hstep, hrun⟩
          exact ih _ _ (step_is_connecting _ _ _ hc hstep) hrun
      | optionChange tcpOk =>
          rcases Option.bind_eq_some.mp h with ⟨mid, hstep, hrun⟩
          exact ih _ _ (step_is_connecting _ _ _ hc hstep) hrun
      | connectComplete oks now =>
          rcases Option.bind_eq_some.mp h with ⟨mid, hstep, hrun⟩
          exact ih _ _ (step_is_connecting _ _ _ hc hstep) hrun
      | tryConnect tcpOk =>
          rcases Option.bind_eq_some.mp h with ⟨mid, hstep, hrun⟩
          exact ih _ _ (step_is_connecting _ _ _ hc hstep) hrun

end ModRs

/-- C9: in every state reachable by processing any command sequence
from the initial logger state, `is_connecting` and `is_connected` are
never simultaneously true; and processing `CONNECT_COMPLETE` clears
`is_connecting`, sets `is_connected`, then triggers the queue drain. -/
theorem C9_flags_disjoint :
    (∀ (cmds : List ModRs.Cmd) (s : ModRs.MState),
        ModRs.run cmds ModRs.startState = some s →
        ¬(s.is_connecting = true ∧ s.is_connected = true)) ∧
    (∀ (oks : Nat → Bool) (now : Nat) (s : ModRs.MState),
        ModRs.step (.connectComplete oks now) s =
          ModRs.process_log_queue oks now
            { s with is_connecting := false, is_connected := true }) := by
  constructor
  · intro cmds s hrun hand
    have hfalse : s.is_connecting = false :=
      ModRs.run_is_connecting cmds ModRs.startState s rfl hrun
    rw [hand.1] at hfalse
    exact absurd hfalse (by simp)
  · intro oks now s
    rfl

/-- Witness for C9: the state reached by processing a single
`CONNECT_COMPLETE` command is connected but not connecting. -/
theorem C9_flags_disjoint_witness :
    ¬(({ ModRs.startState with is_connecting := false, is_connected := true } :
        ModRs.MState).is_connecting = true ∧
      ({ ModRs.startState with is_connecting := false, is_connected := true } :
        ModRs.MState).is_connected = true) :=
  C9_flags_disjoint.1 [.connectComplete (fun _ => true) 0] _ rfl

/-- C5: the older connect path passes the hardcoded address
`"192.168.0.8:60582"` to `TcpStream::connect` instead of the
configured `(remote_host, remote_port)` pair (here `127.0.0.1:9999`);
the newer `logger_state.rs` path does pass the configured address
(and, with the default options, installs the TLS sink). -/
theorem C5_connect_address :
    ModRs.connect_to_remote true
        { ModRs.startState with remote_host := some "127.0.0.1", remote_port := some 9999 }
      = some { ModRs.startState with
               remote_host := some "127.0.0.1", remote_port := some 9999,
               remote_socket := some "192.168.0.8:60582",
               sent := [.connectComplete],
               connect_attempts := ["192.168.0.8:60582"] } ∧
    ("192.168.0.8:60582" : String) ≠ "127.0.0.1:" ++ toString 9999 ∧
    connect_to_remote true true
        { LState.new with remote_host := some "127.0.0.1", remote_port := some 9999 }
      = .ok { LState.new with
              remote_host := some "127.0.0.1", remote_port := some 9999,
              write_stream := some (.ssl "127.0.0.1:9999"),
              sent := [.connectComplete],
              connect_attempts := ["127.0.0.1:9999"] } :=
  ⟨rfl, by decide, rfl⟩

/-! ## `network_manager.rs`: the Discovery Manager -/

/-- One socket address produced by `to_socket_addrs` during Bonjour
resolution, with the two predicates the selection loop tests. -/
structure BonjourAddr where
  ip : String
  isGlobal : Bool
  isIpv4 : Bool
deriving DecidableEq

/-- Outcome of the resolve phase (`core.run(browse_result.resolve..)`,
network_manager.rs lines 118-146). -/
inductive ResolveOutcome where
  | failed
  | resolved (port : Nat) (addrs : List BonjourAddr)
deriving DecidableEq

/-- Outcome of one browse attempt (`core.run(..select2(timeout))`,
network_manager.rs lines 106-162). -/
inductive BrowseOutcome where
  | timedOut
  | coreFailed
  | browsed (serviceName : String) (r : ResolveOutcome)
deriving DecidableEq

/-- `BonjourServiceStatus` (network_manager.rs lines 18-22). -/
inductive BonjourServiceStatus where
  | serviceFound (name host : String) (port : Nat)
  | timedOut
  | unresolved
deriving DecidableEq

/-- `NetworkManager::setup_bonjour` (network_manager.rs lines
100-165): one browse-then-resolve attempt.  `delay_ms` only feeds the
initial `Timeout` future and does not affect the outcome; an
`Except.error` is a panic (`remote_host.unwrap()` when resolution
succeeds but yields no non-global IPv4 address).  A timeout and both
failure paths return `Ok` with a status, never an error. -/
def setup_bonjour (env : BrowseOutcome) (delay_ms : Option Nat) :
    Except String BonjourServiceStatus :=
  match env, delay_ms with
  | .timedOut, _ => .ok .timedOut
  | .coreFailed, _ => .ok .unresolved
  | .browsed name r, _ =>
    match r with
    | .failed => .ok .unresolved
    | .resolved port addrs =>
      match addrs.find? (fun a => !a.isGlobal && a.isIpv4) with
      | some a => .ok (.serviceFound name a.ip port)
      | none => .error "called Option.unwrap on a None value"

/-- Result of the retry loop in `NetworkManager::run` for one
`SetupBonjour` action. -/
inductive RunOutcome where
  | found (sent : List HandlerMsg)
  | panicked (msg : String)
  | pending (currentDelay : Option Nat)
deriving DecidableEq

/-- The retry loop of `NetworkManager::run` (network_manager.rs lines
58-79): re-invoke `setup_bonjour` until a service is found, setting the
initial delay to 10000 ms after an unresolved/timed-out attempt; on
success send `TryConnectBonjour` to the worker.  The list of
per-attempt outcomes acts as fuel; when it is exhausted the loop is
still retrying (`pending`). -/
def runSetupBonjour : List BrowseOutcome → Option Nat → List HandlerMsg → RunOutcome
  | [], d, _ => .pending d
  | env :: rest, d, sent =>
    match setup_bonjour env d with
    | .error m => .panicked m
    | .ok (.serviceFound n h p) => .found (sent ++ [.tryConnectBonjour n h p])
    | .ok .timedOut => runSetupBonjour rest (some 10000) sent
    | .ok .unresolved => runSetupBonjour rest (some 10000) sent

/-- C8: when a browse attempt times out or resolution fails,
`setup_bonjour` reports a timed-out/unresolved status (`Ok`, no fatal
error, no panic) and performs no retry itself beyond accepting the
optional initial delay; the caller's loop (`NetworkManager::run`)
decides the re-invocation, with a 10-second delay. -/
theorem C8_discovery_nonfatal :
    (∀ d, setup_bonjour .timedOut d = .ok .timedOut) ∧
    (∀ n d, setup_bonjour (.browsed n .failed) d = .ok .unresolved) ∧
    (∀ d, setup_bonjour .coreFailed d = .ok .unresolved) ∧
    (∀ rest d sent, runSetupBonjour (.timedOut :: rest) d sent
        = runSetupBonjour rest (some 10000) sent) ∧
    (∀ n rest d sent, runSetupBonjour (.browsed n .failed :: rest) d sent
        = runSetupBonjour rest (some 10000) sent) :=
  ⟨fun _ => rfl, fun _ _ => rfl, fun _ => rfl, fun _ _ _ => rfl, fun _ _ _ _ => rfl⟩

end NSLogger
